import Mathlib

/-!
Verification of the multi-tenant SaaS backend (FastAPI + Supabase).

Shallow embedding notes:
* The relational store (Supabase tables) is a `Store` record of row lists;
  `table(...).select/insert/update/delete(...).execute()` calls become pure
  list operations returning the affected rows, mirroring PostgREST semantics.
* UUIDs are opaque identifiers, modelled as `Nat`; timestamps as `Nat`.
* Service methods are translated statement by statement from
  `src/backend/src/auth/rbac_service.py`, `src/backend/src/auth/service.py`,
  `src/backend/src/organization/service.py`,
  `src/backend/src/auth/middleware.py`, `src/backend/src/auth/models.py` and
  `src/backend/src/notifications/routes.py`.  Telemetry (span/counter) calls
  have no observable effect on results and are omitted; `logging` calls are
  reflected in explicit `logs` fields where a claim is about them.
* In the pure embedding a database call cannot raise a network exception, so
  the `except`-branches of the Python code that only repackage such an
  exception are unreachable and the error component they would produce never
  arises; the explicit not-found / constraint-violation error values are kept.
-/

namespace SaaS

/-- Opaque 128-bit identifiers of the store, modelled as naturals. -/
abbrev UUID := Nat

/-- Row of the `organizations` table (migration `91759229c32b`, plus the
`website` column from migration `a1b2c3d4e5f6`). -/
structure OrganizationRow where
  id : UUID
  name : String
  description : Option String
  slug : String
  website : Option String
  is_active : Bool
  created_at : Nat
  updated_at : Nat
deriving DecidableEq, Repr

/-- Row of the `roles` table. -/
structure RoleRow where
  id : UUID
  name : String
  description : Option String
  is_system_role : Bool
  created_at : Nat
  updated_at : Nat
deriving DecidableEq, Repr

/-- Row of the `permissions` table. -/
structure PermissionRow where
  id : UUID
  name : String
  description : Option String
  resource : String
  action : String
  created_at : Nat
  updated_at : Nat
deriving DecidableEq, Repr

/-- Row of the `role_permissions` junction table. -/
structure RolePermissionRow where
  id : UUID
  role_id : UUID
  permission_id : UUID
  created_at : Nat
deriving DecidableEq, Repr

/-- Row of the `user_roles` junction table (`organization_id` is nullable:
`none` is the platform-wide scope). -/
structure UserRoleRow where
  id : UUID
  user_id : UUID
  role_id : UUID
  organization_id : Option UUID
  created_at : Nat
  updated_at : Nat
deriving DecidableEq, Repr

/-- The relational store backing the RBAC layer. -/
structure Store where
  organizations : List OrganizationRow
  roles : List RoleRow
  permissions : List PermissionRow
  role_permissions : List RolePermissionRow
  user_roles : List UserRoleRow
deriving DecidableEq, Repr

/-- Python's `needle in hay` substring test (used by the routes to classify
service error strings); `hay.splitOn needle` has more than one part exactly
when a nonempty `needle` occurs in `hay`. -/
def contains_substring (hay needle : String) : Bool :=
  (hay.splitOn needle).length != 1

namespace RBACService

/-- Embeds `RBACService.get_organization_by_id` (rbac_service.py:91-123): select by
id, `Organization not found` when no row comes back. -/
def get_organization_by_id (s : Store) (org_id : UUID) :
    Option OrganizationRow × Option String :=
  match s.organizations.filter (fun o => o.id == org_id) with
  | [] => (none, some "Organization not found")
  | o :: _ => (some o, none)

/-- Embeds `RBACService.get_role_by_id` (rbac_service.py:298-329). -/
def get_role_by_id (s : Store) (role_id : UUID) : Option RoleRow × Option String :=
  match s.roles.filter (fun r => r.id == role_id) with
  | [] => (none, some "Role not found")
  | r :: _ => (some r, none)

/-- Embeds `RBACService.get_role_by_name` (rbac_service.py:331-362). -/
def get_role_by_name (s : Store) (name : String) : Option RoleRow × Option String :=
  match s.roles.filter (fun r => r.name == name) with
  | [] => (none, some "Role not found")
  | r :: _ => (some r, none)

/-- Embeds `RBACService.get_permission_by_id` (rbac_service.py:505-537). -/
def get_permission_by_id (s : Store) (perm_id : UUID) :
    Option PermissionRow × Option String :=
  match s.permissions.filter (fun p => p.id == perm_id) with
  | [] => (none, some "Permission not found")
  | p :: _ => (some p, none)

/-- Embeds `RBACService.get_permission_by_name` (rbac_service.py:539-571): select the
`permissions` rows whose name matches; `Permission not found` when none. -/
def get_permission_by_name (s : Store) (name : String) :
    Option PermissionRow × Option String :=
  match s.permissions.filter (fun p => p.name == name) with
  | [] => (none, some "Permission not found")
  | p :: _ => (some p, none)

/-- Embeds `RBACService.get_roles_for_user` (rbac_service.py:918-956): select
`user_roles` rows for the user, filtered by `organization_id` when given and
by `organization_id IS NULL` otherwise, with the joined `roles(*)` row kept
whenever the join is inhabited. -/
def get_roles_for_user (s : Store) (user_id : UUID) (organization_id : Option UUID) :
    List RoleRow × Option String :=
  let rows := s.user_roles.filter
    (fun ur => ur.user_id == user_id && ur.organization_id == organization_id)
  (rows.filterMap (fun ur => s.roles.find? (fun r => r.id == ur.role_id)), none)

/-- Embeds `RBACService.get_permissions_for_role` (rbac_service.py:740-771): select
`role_permissions` rows of the role with the joined `permissions(*)` row. -/
def get_permissions_for_role (s : Store) (role_id : UUID) :
    List PermissionRow × Option String :=
  ((s.role_permissions.filter (fun rp => rp.role_id == role_id)).filterMap
      (fun rp => s.permissions.find? (fun p => p.id == rp.permission_id)), none)

/-- Embeds `RBACService.check_permission` (rbac_service.py:1003-1050), the
`user_has_permission` operation: fetch the user's roles in the scope, resolve
the permission by name (propagating its not-found error), then return true on
the first role whose permission set contains the target permission's id. -/
def check_permission (s : Store) (user_id : UUID) (permission_name : String)
    (organization_id : Option UUID) : Bool × Option String :=
  let (roles, err) := get_roles_for_user s user_id organization_id
  match err with
  | some e => (false, some e)
  | none =>
    match get_permission_by_name s permission_name with
    | (_, some e) => (false, some e)
    | (none, none) => (false, some "Permission not found")
    | (some permission, none) =>
      if roles.any (fun role =>
          let (permissions, perr) := get_permissions_for_role s role.id
          match perr with
          | some _ => false
          | none => permissions.any (fun perm => perm.id == permission.id))
      then (true, none)
      else (false, none)

/-- The role-scan loop of `check_permission` (rbac_service.py:1034-1042),
factored out verbatim for the proofs: some role of the user in the scope has
a `role_permissions` link to the permission with id `pid`. -/
def roles_any_has_perm (s : Store) (u : UUID) (o : Option UUID) (pid : UUID) : Bool :=
  ((s.user_roles.filter (fun ur => ur.user_id == u && ur.organization_id == o)).filterMap
      (fun ur => s.roles.find? (fun r => r.id == ur.role_id))).any
    (fun role =>
      ((s.role_permissions.filter (fun rp => rp.role_id == role.id)).filterMap
          (fun rp => s.permissions.find? (fun pp => pp.id == rp.permission_id))).any
        (fun perm => perm.id == pid))

/-- The specification's reading of the permission check (claim C1): some
role assigned to the user in the queried scope — a `user_roles` row whose
`organization_id` equals the scope — is linked by a `role_permissions` row
to the permission named `p`. -/
def user_has_permission_spec (s : Store) (u : UUID) (p : String) (o : Option UUID) : Prop :=
  ∃ ur ∈ s.user_roles, ur.user_id = u ∧ ur.organization_id = o ∧
    ∃ rp ∈ s.role_permissions, rp.role_id = ur.role_id ∧
      ∃ perm ∈ s.permissions, perm.name = p ∧ rp.permission_id = perm.id

/-- Embeds `RBACService.delete_role` (rbac_service.py:432-461): first delete the
role's `role_permissions` rows, then its `user_roles` rows, then the role
itself; `Role not found` when the final delete touched no row.  The method
has no `is_system_role` check. -/
def delete_role (s : Store) (role_id : UUID) : (Bool × Option String) × Store :=
  let s1 : Store :=
    { s with role_permissions := s.role_permissions.filter (fun rp => !(rp.role_id == role_id)) }
  let s2 : Store :=
    { s1 with user_roles := s1.user_roles.filter (fun ur => !(ur.role_id == role_id)) }
  let deleted := s2.roles.filter (fun r => r.id == role_id)
  let s3 : Store := { s2 with roles := s2.roles.filter (fun r => !(r.id == role_id)) }
  match deleted with
  | [] => ((false, some "Role not found"), s3)
  | _ :: _ => ((true, none), s3)

/-- Embeds `UserRoleCreate` (rbac_models.py:105-110). -/
structure UserRoleCreate where
  user_id : UUID
  role_id : UUID
  organization_id : Option UUID
deriving DecidableEq, Repr

/-- The `UNIQUE (user_id, organization_id)` constraint declared on
`user_roles` by migration `91759229c32b`: a second row for the same pair is
a conflict. -/
def scope_taken (s : Store) (user_id : UUID) (organization_id : Option UUID) : Bool :=
  s.user_roles.any
    (fun ur => ur.user_id == user_id && ur.organization_id == organization_id)

/-- Database insert into `user_roles` under the declared uniqueness
constraint: `none` when the constraint rejects the row, otherwise the created
row (with generated id and timestamps) and the grown store. -/
def db_insert_user_role (s : Store) (fresh_id now : Nat) (user_id role_id : UUID)
    (organization_id : Option UUID) : Option (UserRoleRow × Store) :=
  if scope_taken s user_id organization_id then none
  else
    let row : UserRoleRow :=
      { id := fresh_id, user_id := user_id, role_id := role_id,
        organization_id := organization_id, created_at := now, updated_at := now }
    some (row, { s with user_roles := s.user_roles ++ [row] })

/-- Embeds `RBACService.assign_role_to_user` (rbac_service.py:775-816): a plain
insert of the `user_roles` row; a database constraint violation surfaces
through the `except` branch as an error string. -/
def assign_role_to_user (s : Store) (fresh_id now : Nat) (d : UserRoleCreate) :
    (Option UserRoleRow × Option String) × Store :=
  match db_insert_user_role s fresh_id now d.user_id d.role_id d.organization_id with
  | some (row, s1) => ((some row, none), s1)
  | none =>
    ((none, some "duplicate key value violates unique constraint \"user_roles_user_id_organization_id_key\""), s)

/-- Embeds `OrganizationUpdate` (rbac_models.py:24-29): every field optional. -/
structure OrganizationUpdate where
  name : Option String
  description : Option String
  slug : Option String
  is_active : Option Bool
deriving DecidableEq, Repr

/-- The SQL `UPDATE organizations SET <given fields> WHERE id = org_id`
applied to one row. -/
def apply_org_update (o : OrganizationRow) (d : OrganizationUpdate) : OrganizationRow :=
  { o with
    name := d.name.getD o.name
    description := match d.description with | some v => some v | none => o.description
    slug := d.slug.getD o.slug
    is_active := d.is_active.getD o.is_active }

/-- Embeds `RBACService.update_organization` (rbac_service.py:185-232): collect the
non-`None` fields; when none is given, return `get_organization_by_id`
without touching the store; otherwise run the update and return the first
returned row, or `Organization not found or update failed`. -/
def update_organization (s : Store) (org_id : UUID) (d : OrganizationUpdate) :
    (Option OrganizationRow × Option String) × Store :=
  if d.name == none && d.description == none && d.slug == none && d.is_active == none then
    (get_organization_by_id s org_id, s)
  else
    let updated := s.organizations.map
      (fun o => if o.id == org_id then apply_org_update o d else o)
    let s1 : Store := { s with organizations := updated }
    match updated.filter (fun o => o.id == org_id) with
    | [] => ((none, some "Organization not found or update failed"), s1)
    | o :: _ => ((some o, none), s1)

/-- Embeds `RoleUpdate` (rbac_models.py:51-55). -/
structure RoleUpdate where
  name : Option String
  description : Option String
  is_system_role : Option Bool
deriving DecidableEq, Repr

/-- The SQL `UPDATE roles` for the fields `update_role` actually writes
(`name` and `description` only; `is_system_role` is never written). -/
def apply_role_update (r : RoleRow) (d : RoleUpdate) : RoleRow :=
  { r with
    name := d.name.getD r.name
    description := match d.description with | some v => some v | none => r.description }

/-- Embeds `RBACService.update_role` (rbac_service.py:389-430): only `name` and
`description` are collected; with nothing to write it returns
`get_role_by_id` and issues no update. -/
def update_role (s : Store) (role_id : UUID) (d : RoleUpdate) :
    (Option RoleRow × Option String) × Store :=
  if d.name == none && d.description == none then
    (get_role_by_id s role_id, s)
  else
    let updated := s.roles.map
      (fun r => if r.id == role_id then apply_role_update r d else r)
    let s1 : Store := { s with roles := updated }
    match updated.filter (fun r => r.id == role_id) with
    | [] => ((none, some "Role not found or update failed"), s1)
    | r :: _ => ((some r, none), s1)

/-- Embeds `PermissionUpdate` (rbac_models.py:78-83). -/
structure PermissionUpdate where
  name : Option String
  description : Option String
  resource : Option String
  action : Option String
deriving DecidableEq, Repr

/-- The SQL `UPDATE permissions SET <given fields>` applied to one row. -/
def apply_permission_update (p : PermissionRow) (d : PermissionUpdate) : PermissionRow :=
  { p with
    name := d.name.getD p.name
    description := match d.description with | some v => some v | none => p.description
    resource := d.resource.getD p.resource
    action := d.action.getD p.action }

/-- Embeds `RBACService.update_permission` (rbac_service.py:599-645): with every
field `None` it returns `get_permission_by_id` and issues no update. -/
def update_permission (s : Store) (perm_id : UUID) (d : PermissionUpdate) :
    (Option PermissionRow × Option String) × Store :=
  if d.name == none && d.description == none && d.resource == none && d.action == none then
    (get_permission_by_id s perm_id, s)
  else
    let updated := s.permissions.map
      (fun p => if p.id == perm_id then apply_permission_update p d else p)
    let s1 : Store := { s with permissions := updated }
    match updated.filter (fun p => p.id == perm_id) with
    | [] => ((none, some "Permission not found or update failed"), s1)
    | p :: _ => ((some p, none), s1)

end RBACService

/-- HTTP outcomes produced by the route adapters. -/
inductive HttpOutcome where
  | no_content_204
  | bad_request_400 (detail : String)
  | forbidden_403 (detail : String)
  | not_found_404 (detail : String)
  | server_error_500 (detail : String)
deriving DecidableEq, Repr

/-- Embeds `DELETE /rbac/roles/{role_id}` (rbac_routes.py:153-192).  The
handler's first statement is its platform-admin guard,
`rbac_service.user_has_role(current_user_id, "platform_admin")`
(rbac_routes.py:162) — but the monolithic `RBACService` (rbac_service.py)
defines no `user_has_role` method, so the attribute lookup raises
`AttributeError` on every request, before any service call runs; the
framework converts the unhandled exception into a plain 500 response and the
store is untouched.  The rest of the handler is unreachable; it is embedded
as `delete_role_route_after_guard` below. -/
def delete_role_route (s : Store) (_caller : UUID) (_role_id : UUID) :
    HttpOutcome × Store :=
  (.server_error_500 "Internal Server Error", s)

/-- Embeds the continuation of the same handler past its guard
(rbac_routes.py:170-192), unreachable in the source because the guard raises
first: call `RBACService.delete_role`, then map the error text — substring
`not found` to 404, substring `system roles` to 400, anything else to 500 —
and 204 on success. -/
def delete_role_route_after_guard (s : Store) (role_id : UUID) :
    HttpOutcome × Store :=
  match RBACService.delete_role s role_id with
  | ((_, some e), s1) =>
    if contains_substring e.toLower "not found" then (.not_found_404 e, s1)
    else if contains_substring e.toLower "system roles" then (.bad_request_400 e, s1)
    else (.server_error_500 e, s1)
  | ((_, none), s1) => (.no_content_204, s1)

namespace OrganizationService

/-- Embeds `OrganizationUpdate` of the decomposed organization package
(organization/models.py:25-31): adds the optional `website` field. -/
structure OrganizationUpdate where
  name : Option String
  description : Option String
  slug : Option String
  website : Option String
  is_active : Option Bool
deriving DecidableEq, Repr

/-- Embeds `OrganizationService.get_organization_by_id`
(organization/service.py:88-116), identical in behaviour to the RBAC
variant. -/
def get_organization_by_id (s : Store) (org_id : UUID) :
    Option OrganizationRow × Option String :=
  match s.organizations.filter (fun o => o.id == org_id) with
  | [] => (none, some "Organization not found")
  | o :: _ => (some o, none)

/-- The SQL update issued by `OrganizationService.update_organization`: only
`name`, `description`, `slug` and `is_active` are ever written (the code
never reads `website` from the update object). -/
def apply_org_update (o : OrganizationRow) (d : OrganizationUpdate) : OrganizationRow :=
  { o with
    name := d.name.getD o.name
    description := match d.description with | some v => some v | none => o.description
    slug := d.slug.getD o.slug
    is_active := d.is_active.getD o.is_active }

/-- Embeds `OrganizationService.update_organization` (organization/service.py:187-236):
collect the non-`None` fields among `name`/`description`/`slug`/`is_active`;
when none is given, return `get_organization_by_id` without touching the
store. -/
def update_organization (s : Store) (org_id : UUID) (d : OrganizationUpdate) :
    (Option OrganizationRow × Option String) × Store :=
  if d.name == none && d.description == none && d.slug == none && d.is_active == none then
    (get_organization_by_id s org_id, s)
  else
    let updated := s.organizations.map
      (fun o => if o.id == org_id then apply_org_update o d else o)
    let s1 : Store := { s with organizations := updated }
    match updated.filter (fun o => o.id == org_id) with
    | [] => ((none, some "Organization not found or update failed"), s1)
    | o :: _ => ((some o, none), s1)

end OrganizationService

namespace Middleware

/-- A bearer token as the `pyjwt` library sees it: either a well-formed JWT
with a header segment, a payload of claims, and a signature segment, or a
string that fails to parse (three-segment / base64 / JSON structure), which
makes `jwt.decode` raise `DecodeError`. -/
inductive RawToken where
  | wellFormed (header : String) (claims : List (String × String)) (sig : String)
  | malformed
deriving DecidableEq, Repr

/-- External-library boundary: `jwt.decode(token, options={"verify_signature":
False})` as called by middleware.py:37 and middleware.py:81 — it parses the
token and returns the payload claims, reading the signature segment for
structure only and never comparing it against anything. -/
def jwt_decode_unverified : RawToken → Except String (List (String × String))
  | .wellFormed _ claims _ => .ok claims
  | .malformed => .error "DecodeError"

/-- The `Authorization` header once scheme checking is done:
`startswith("Bearer ")` plus the carried token. -/
structure AuthHeaderVal where
  isBearer : Bool
  token : RawToken
deriving DecidableEq, Repr

/-- Result of the request-identity dependency. -/
inductive AuthResult where
  | ok (user_id : String)
  | unauthorized (detail : String)
deriving DecidableEq, Repr

/-- Embeds `payload.get("sub")`. -/
def lookup_claim (claims : List (String × String)) (k : String) : Option String :=
  (claims.find? (fun kv => kv.1 == k)).map (fun kv => kv.2)

/-- Embeds `get_current_user_id` (middleware.py:12-62), parametrised by the `UUID`
constructor's acceptance predicate (Python's `uuid.UUID`): 401 when the
header is missing or not `Bearer `-prefixed, when decoding raises, when the
`sub` claim is absent or falsy (empty), or when it is not a valid UUID
string; otherwise the `sub` claim is returned as the caller's id. -/
def get_current_user_id (validUuid : String → Bool)
    (authorization : Option AuthHeaderVal) : AuthResult :=
  match authorization with
  | none => .unauthorized "Missing or invalid authorization header"
  | some h =>
    if !h.isBearer then .unauthorized "Missing or invalid authorization header"
    else
      match jwt_decode_unverified h.token with
      | .error _ => .unauthorized "Invalid token"
      | .ok payload =>
        match lookup_claim payload "sub" with
        | none => .unauthorized "Invalid token: user ID not found"
        | some uid =>
          if uid == "" then .unauthorized "Invalid token: user ID not found"
          else if validUuid uid then .ok uid
          else .unauthorized "Invalid user ID in token"

/-- Embeds `verify_supabase_token` (middleware.py:65-87): `Supabase not configured`
when the provider credentials are absent, otherwise the unverified decode's
payload or `Invalid token`. -/
def verify_supabase_token (configured : Bool) (token : RawToken) :
    Option (List (String × String)) × Option String :=
  if !configured then (none, some "Supabase not configured")
  else
    match jwt_decode_unverified token with
    | .ok payload => (some payload, none)
    | .error _ => (none, some "Invalid token")

end Middleware

namespace AuthService

end AuthService

namespace AuthModels

/-- Embeds `SignUpRequest` (models.py:10-17) once validation has accepted it. -/
structure SignUpRequest where
  email : String
  password : String
  password_confirm : String
  first_name : String
  last_name : String
deriving DecidableEq, Repr

/-- Regex `[A-Z]` of models.py:27. -/
def has_uppercase (v : String) : Bool :=
  v.data.any (fun c => 'A' ≤ c && c ≤ 'Z')

/-- Regex `[a-z]` of models.py:31. -/
def has_lowercase (v : String) : Bool :=
  v.data.any (fun c => 'a' ≤ c && c ≤ 'z')

/-- Regex `\d` of models.py:35 (decimal digits). -/
def has_digit (v : String) : Bool :=
  v.data.any (fun c => '0' ≤ c && c ≤ '9')

/-- The special-character set of models.py:39. -/
def special_chars : List Char :=
  ['!', '@', '#', '$', '%', '^', '&', '*', '(', ')', ',', '.', '?', '\"',
   ':', '\x7b', '\x7d', '|', '<', '>']

/-- Regex `[!@#$%^&*(),.?":{}|<>]` of models.py:39. -/
def has_special (v : String) : Bool :=
  v.data.any (fun c => special_chars.contains c)

/-- Embeds `SignUpRequest.validate_password` (models.py:19-42): the five ordered
strength checks, returning the first failure's message. -/
def validate_password (v : String) : Option String :=
  if v.length < 8 then some "Password must be at least 8 characters long"
  else if !has_uppercase v then some "Password must contain at least one uppercase letter"
  else if !has_lowercase v then some "Password must contain at least one lowercase letter"
  else if !has_digit v then some "Password must contain at least one number"
  else if !has_special v then
    some "Password must contain at least one special character"
  else none

/-- Validated construction of a `SignUpRequest`, as pydantic performs it:
field constraints (`EmailStr` — an external validator, taken as a
parameter —, the password `Field` length bounds and `validate_password`, the
name `Field` length bounds) run first, and `model_post_init`'s equality check
(models.py:44-47) runs only after every field validated.  Pydantic collects
all field errors; this embedding reports the first, which rejects exactly the
same inputs. -/
def mk_sign_up_request (emailValid : String → Bool)
    (email password password_confirm first_name last_name : String) :
    Except String SignUpRequest :=
  if !emailValid email then .error "value is not a valid email address"
  else if password.length < 8 then .error "String should have at least 8 characters"
  else if 128 < password.length then .error "String should have at most 128 characters"
  else
    match validate_password password with
    | some e => .error e
    | none =>
      if first_name.length < 1 then .error "String should have at least 1 character"
      else if 50 < first_name.length then .error "String should have at most 50 characters"
      else if last_name.length < 1 then .error "String should have at least 1 character"
      else if 50 < last_name.length then .error "String should have at most 50 characters"
      else if password != password_confirm then .error "Passwords do not match"
      else .ok { email := email, password := password,
                 password_confirm := password_confirm,
                 first_name := first_name, last_name := last_name }

/-- What `POST /auth/signup` does with a request body: FastAPI validates the
body against `SignUpRequest` before the handler runs, so a validation failure
is rejected without the handler — and hence without any identity-provider
call — ever running. -/
inductive SignupRouteOutcome where
  | validationError (msg : String)
  | providerCall (req : SignUpRequest)
deriving DecidableEq, Repr

/-- The model-validation gate of `POST /auth/signup` (routes.py body model +
models.py): either a validation rejection or the handler invocation that
forwards the validated request to the provider. -/
def signup_route (emailValid : String → Bool)
    (email password password_confirm first_name last_name : String) :
    SignupRouteOutcome :=
  match mk_sign_up_request emailValid email password password_confirm first_name last_name with
  | .error e => .validationError e
  | .ok req => .providerCall req

end AuthModels

namespace Notifications

/-- Row of the `email_verification_tokens` table (migration
`d1e2f3g4h5i6`). -/
structure VerificationTokenRow where
  user_id : UUID
  token : String
  expires_at : Nat
  used_at : Option Nat
deriving DecidableEq, Repr

/-- The provider-side user record as the verification flow reads it. -/
structure ProviderUser where
  id : UUID
  email_confirmed_at : Option Nat
deriving DecidableEq, Repr

/-- State the verification route operates on: the token table, the
provider's user store, the current time, and whether the Supabase client is
configured. -/
structure NotifState where
  tokens : List VerificationTokenRow
  users : List ProviderUser
  now : Nat
  configured : Bool
deriving DecidableEq, Repr

/-- Modelled from the spec: `notification_service.validate_verification_token`
lives in `src/backend/src/notifications/service.py`, which is not under
`src/`; per §4.10 it "returns the associated user id only if the token
exists, is unexpired, and is unused; otherwise returns absent". -/
def validate_verification_token (st : NotifState) (token : String) : Option UUID :=
  match st.tokens.find? (fun r => r.token == token) with
  | some row =>
    if row.used_at == none && st.now < row.expires_at then some row.user_id else none
  | none => none

/-- Modelled from the spec: `notification_service.use_verification_token`
(same missing module); per §4.10 it "stamps `used_at`". -/
def use_verification_token (st : NotifState) (token : String) : NotifState :=
  { st with
    tokens := st.tokens.map
      (fun r => if r.token == token then { r with used_at := some st.now } else r) }

/-- A JSON body returned by the verification route. -/
structure VerifyEmailBody where
  status : String
  message : String
  redirect_url : String
deriving DecidableEq, Repr

/-- Outcome of `GET /api/notifications/verify-email`. -/
inductive VerifyEmailResult where
  | ok (body : VerifyEmailBody)
  | httpError (code : Nat) (detail : String)
deriving DecidableEq, Repr

/-- The provider-side `auth.admin.update_user_by_id(..., email_confirm=True)`
call issued by `verify_email` (routes.py:158-163): set the user's
email-confirmation flag. -/
def confirm_user (st : NotifState) (user_id : UUID) : NotifState :=
  { st with
    users := st.users.map
      (fun u => if u.id == user_id then { u with email_confirmed_at := some st.now } else u) }

/-- Embeds `verify_email` (notifications/routes.py:117-189): validate the token
(400 when invalid/expired/used), require the configured client (500), fetch
the user (404), then — already confirmed: mark the token used and answer
`already_verified`; not yet confirmed: set the provider's email-confirmation
flag (500 if the update returns no user), mark the token used, and answer
`success`; both bodies carry `redirect_url` `/dashboard`. -/
def verify_email (st : NotifState) (token : String) : VerifyEmailResult × NotifState :=
  match validate_verification_token st token with
  | none => (.httpError 400 "Invalid or expired verification token", st)
  | some user_id =>
    if !st.configured then (.httpError 500 "Supabase client not configured", st)
    else
      match st.users.find? (fun u => u.id == user_id) with
      | none => (.httpError 404 "User not found", st)
      | some user =>
        if user.email_confirmed_at.isSome then
          let st1 := use_verification_token st token
          (.ok { status := "already_verified", message := "Email is already verified",
                 redirect_url := "/dashboard" }, st1)
        else
          let st1 := confirm_user st user_id
          match st1.users.find? (fun u => u.id == user_id) with
          | none => (.httpError 500 "Failed to update user verification status", st1)
          | some _ =>
            let st2 := use_verification_token st1 token
            (.ok { status := "success", message := "Email verified successfully",
                   redirect_url := "/dashboard" }, st2)

/-- One entry of the per-request profile's role list: the later middleware
variant loads the caller's roles (with their scopes) from the RBAC layer. -/
structure ProfileRole where
  role_name : String
  organization_id : Option UUID
deriving DecidableEq, Repr

/-- Modelled from the spec: the profile object assembled by
`get_authenticated_user` (the later middleware variant, not under `src/`);
per §4.4 it exposes the caller's role set and a `has_role(name)` convenience
check. -/
structure AuthProfile where
  roles : List ProfileRole
deriving DecidableEq, Repr

/-- Modelled from the spec: `profile.has_role(name)` — membership of a role
of that name in the loaded role set. -/
def AuthProfile.has_role (p : AuthProfile) (name : String) : Bool :=
  p.roles.any (fun r => r.role_name == name)

/-- Outcome of `GET /api/notifications/stats`: the stats query actually
issued (with its organization filter) or an HTTP rejection. -/
inductive StatsResult where
  | stats (organization_id : Option UUID)
  | forbidden (detail : String)
  | badRequest (detail : String)
deriving DecidableEq, Repr

/-- Embeds `get_notification_stats` (notifications/routes.py:558-590): platform
admins fall through to the stats query with whatever filter they supplied;
anyone else needs an `organization_id` (400 when absent) matching the scope
of one of their roles (403 otherwise). -/
def get_notification_stats (profile : AuthProfile) (organization_id : Option UUID) :
    StatsResult :=
  if profile.has_role "platform_admin" then .stats organization_id
  else
    match organization_id with
    | some oid =>
      if profile.roles.any (fun r => r.organization_id == some oid) then
        .stats (some oid)
      else .forbidden "You do not have access to stats for this organization"
    | none => .badRequest "organization_id is required for non-admin users"

end Notifications

/-! Concrete fixtures used by witnesses and counterexamples. -/

/-- The seeded `platform_admin` system role (migration `91759229c32b`). -/
def sysAdminRole : RoleRow :=
  { id := 1, name := "platform_admin",
    description := some "Full control over the entire platform across all tenants",
    is_system_role := true, created_at := 0, updated_at := 0 }

/-- A non-system demo role. -/
def demoRole : RoleRow :=
  { id := 2, name := "billing_clerk", description := none,
    is_system_role := false, created_at := 0, updated_at := 0 }

/-- The seeded `billing:read` permission. -/
def billingReadPerm : PermissionRow :=
  { id := 21, name := "billing:read", description := some "View billing information",
    resource := "billing", action := "read", created_at := 0, updated_at := 0 }

/-- A demo organization. -/
def demoOrg : OrganizationRow :=
  { id := 5, name := "Acme", description := none, slug := "acme", website := none,
    is_active := true, created_at := 0, updated_at := 0 }

/-- A demo store: a platform admin (user 100) holding `platform_admin`
platform-wide, and user 200 holding `billing_clerk` in organization 5, which
grants `billing:read`. -/
def demoStore : Store :=
  { organizations := [demoOrg]
    roles := [sysAdminRole, demoRole]
    permissions := [billingReadPerm]
    role_permissions := [{ id := 31, role_id := 2, permission_id := 21, created_at := 0 }]
    user_roles :=
      [{ id := 41, user_id := 100, role_id := 1, organization_id := none,
         created_at := 0, updated_at := 0 },
       { id := 42, user_id := 200, role_id := 2, organization_id := some 5,
         created_at := 0, updated_at := 0 }] }

/-- The one-role-per-scope store invariant: no two `user_roles` rows share
the `(user_id, organization_id)` pair (`none` being the platform scope). -/
def UniqueScopeInv (s : Store) : Prop :=
  s.user_roles.Pairwise
    (fun a b => ¬ (a.user_id = b.user_id ∧ a.organization_id = b.organization_id))

/-- A caller profile holding only an organization-scoped role in org 5. -/
def demoMemberProfile : Notifications.AuthProfile :=
  { roles := [{ role_name := "org_admin", organization_id := some 5 }] }

/-- A verification-flow state: one live token for the unconfirmed user 7. -/
def demoNotifState : Notifications.NotifState :=
  { tokens := [{ user_id := 7, token := "tok123", expires_at := 100, used_at := none }],
    users := [{ id := 7, email_confirmed_at := none }],
    now := 50, configured := true }

/-! Claim theorems. -/

/-- Claim C10: for `update_organization`, `update_role` and
`update_permission`, a call whose update object has every field `None`
issues no write: it returns the corresponding get-by-id lookup and leaves
the store — every field of every stored row, `updated_at` included —
unchanged. -/
theorem update_with_all_none_fields_is_readonly (s : Store) (i j k m : UUID) :
    RBACService.update_organization s i
        { name := none, description := none, slug := none, is_active := none }
      = (RBACService.get_organization_by_id s i, s)
    ∧ RBACService.update_role s j { name := none, description := none, is_system_role := none }
      = (RBACService.get_role_by_id s j, s)
    ∧ RBACService.update_permission s k
        { name := none, description := none, resource := none, action := none }
      = (RBACService.get_permission_by_id s k, s)
    ∧ OrganizationService.update_organization s m
        { name := none, description := none, slug := none, website := none, is_active := none }
      = (OrganizationService.get_organization_by_id s m, s) :=
  ⟨rfl, rfl, rfl, rfl⟩

/-- Claim C2, counter-evidence at the seeded `platform_admin` system role
deleted by a platform administrator: the route never answers the claimed 400
— its guard's call to the nonexistent `user_has_role` raises, so every
request yields 500 (with the row intact only by accident of failing early) —
and `RBACService.delete_role` itself has no `is_system_role` guard: invoked
past the guard it deletes the row and returns success, so the unreachable
continuation would answer 204; the route's `"system roles"` branch can never
fire. -/
theorem delete_role_system_role_unprotected :
    demoStore.roles.any (fun r => r.id == 1 && r.is_system_role) = true
    ∧ (delete_role_route demoStore 100 1).1
      = HttpOutcome.server_error_500 "Internal Server Error"
    ∧ (delete_role_route demoStore 100 1).2 = demoStore
    ∧ (RBACService.delete_role demoStore 1).1 = (true, none)
    ∧ (RBACService.delete_role demoStore 1).2.roles.any (fun r => r.id == 1) = false
    ∧ (delete_role_route_after_guard demoStore 1).1 = HttpOutcome.no_content_204 := by
  decide

/-- Claim C3: `get_current_user_id` and `verify_supabase_token` decode the
bearer JWT without verifying its signature — two well-formed tokens with
identical header and payload but different (possibly empty) signatures
produce identical results — and the `sub` claim is extracted and trusted
outright. -/
theorem middleware_ignores_jwt_signature (validUuid : String → Bool)
    (configured : Bool) (isB : Bool) (hdr : String)
    (claims : List (String × String)) (sig1 sig2 : String) :
    Middleware.get_current_user_id validUuid
        (some { isBearer := isB, token := .wellFormed hdr claims sig1 })
      = Middleware.get_current_user_id validUuid
          (some { isBearer := isB, token := .wellFormed hdr claims sig2 })
    ∧ Middleware.verify_supabase_token configured (.wellFormed hdr claims sig1)
      = Middleware.verify_supabase_token configured (.wellFormed hdr claims sig2)
    ∧ (∀ uid, Middleware.lookup_claim claims "sub" = some uid → uid ≠ "" →
        validUuid uid = true →
        Middleware.get_current_user_id validUuid
            (some { isBearer := true, token := .wellFormed hdr claims sig1 })
          = .ok uid) := by
  refine ⟨rfl, rfl, ?_⟩
  intro uid hsub hne hv
  simp [Middleware.get_current_user_id, Middleware.jwt_decode_unverified, hsub, hv, hne]

/-- Witness for C3 at a concrete forged token. -/
theorem middleware_ignores_jwt_signature_witness :
    Middleware.get_current_user_id (fun _ => true)
        (some { isBearer := true,
                token := .wellFormed "hs256" [("sub", "user-1")] "forged-signature" })
      = .ok "user-1" :=
  (middleware_ignores_jwt_signature (fun _ => true) true true "hs256"
      [("sub", "user-1")] "forged-signature" "").2.2 "user-1" rfl (by decide) rfl

/-- Helper: a password that `validate_password` accepts satisfies every
strength rule. -/
theorem validate_password_none_facts (pw : String)
    (hv : AuthModels.validate_password pw = none) :
    ¬ pw.length < 8 ∧ AuthModels.has_uppercase pw = true
    ∧ AuthModels.has_lowercase pw = true ∧ AuthModels.has_digit pw = true
    ∧ AuthModels.has_special pw = true := by
  unfold AuthModels.validate_password at hv
  split_ifs at hv with h1 h2 h3 h4 h5
  exact ⟨h1, by simpa using h2, by simpa using h3, by simpa using h4, by simpa using h5⟩

/-- Claim C8: a sign-up password shorter than 8 characters, longer than 128,
or lacking an uppercase letter, a lowercase letter, a digit, or a special
character is rejected by the `SignUpRequest` model validation, so the
handler — and any identity-provider call — never runs. -/
theorem signup_password_policy_rejects (emailValid : String → Bool)
    (email pw pc fn ln : String)
    (h : pw.length < 8 ∨ 128 < pw.length
       ∨ AuthModels.has_uppercase pw = false ∨ AuthModels.has_lowercase pw = false
       ∨ AuthModels.has_digit pw = false ∨ AuthModels.has_special pw = false) :
    ∃ e, AuthModels.signup_route emailValid email pw pc fn ln
      = .validationError e := by
  cases hv : AuthModels.validate_password pw with
  | some e =>
    unfold AuthModels.signup_route AuthModels.mk_sign_up_request
    rw [hv]
    split_ifs <;> exact ⟨_, rfl⟩
  | none =>
    obtain ⟨hlen, hup, hlo, hdi, hsp⟩ := validate_password_none_facts pw hv
    have h128 : 128 < pw.length := by
      rcases h with h | h | h | h | h | h
      · exact absurd h hlen
      · exact h
      · rw [hup] at h; exact absurd h (by simp)
      · rw [hlo] at h; exact absurd h (by simp)
      · rw [hdi] at h; exact absurd h (by simp)
      · rw [hsp] at h; exact absurd h (by simp)
    unfold AuthModels.signup_route AuthModels.mk_sign_up_request
    rw [hv]
    split_ifs <;> exact ⟨_, rfl⟩

/-- Witness for C8: a too-short password is rejected by validation. -/
theorem signup_password_policy_rejects_witness :
    ∃ e, AuthModels.signup_route (fun _ => true) "ada@example.com" "short"
        "short" "Ada" "L" = .validationError e :=
  signup_password_policy_rejects (fun _ => true) "ada@example.com" "short"
    "short" "Ada" "L" (Or.inl (by decide))

/-- Claim C9: a sign-up request whose `password` differs from
`password_confirm` is rejected by model validation (so no provider call is
made), and when every individual field validation passes, the rejection is
exactly the `model_post_init` mismatch error, which runs after them. -/
theorem signup_password_mismatch_rejects (emailValid : String → Bool)
    (email pw pc fn ln : String) (h : pw ≠ pc) :
    (∃ e, AuthModels.signup_route emailValid email pw pc fn ln
        = .validationError e)
    ∧ (emailValid email = true → ¬ pw.length < 8 → ¬ 128 < pw.length →
       AuthModels.validate_password pw = none →
       ¬ fn.length < 1 → ¬ 50 < fn.length → ¬ ln.length < 1 → ¬ 50 < ln.length →
       AuthModels.signup_route emailValid email pw pc fn ln
         = .validationError "Passwords do not match") := by
  constructor
  · cases hv : AuthModels.validate_password pw with
    | some e =>
      unfold AuthModels.signup_route AuthModels.mk_sign_up_request
      rw [hv]
      split_ifs <;> exact ⟨_, rfl⟩
    | none =>
      unfold AuthModels.signup_route AuthModels.mk_sign_up_request
      rw [hv]
      split_ifs with g1 g2 g3 g4 g5 g6 g7 g8
      all_goals try exact ⟨_, rfl⟩
      have hpc : pw = pc := by simpa using g8
      exact absurd hpc h
  · intro hev hl1 hl2 hv hf1 hf2 hg1 hg2
    unfold AuthModels.signup_route AuthModels.mk_sign_up_request
    rw [hv]
    have hne : (pw != pc) = true := by simpa using h
    simp [hev, hl1, hl2, hf1, hf2, hg1, hg2, hne]

/-- Witness for C9: mismatched confirmation on an otherwise valid request
yields exactly the post-init mismatch error. -/
theorem signup_password_mismatch_rejects_witness :
    AuthModels.signup_route (fun _ => true) "ada@example.com" "Passw0rd!"
        "Different1!" "Ada" "L" = .validationError "Passwords do not match" :=
  (signup_password_mismatch_rejects (fun _ => true) "ada@example.com" "Passw0rd!"
      "Different1!" "Ada" "L" (by decide)).2 rfl (by decide) (by decide)
    (by decide) (by decide) (by decide) (by decide) (by decide)

/-- Claim C6: a caller without `platform_admin` gets 400 from the stats
endpoint when no `organization_id` is supplied and 403 when the supplied
organization is not a scope of any of their roles; the global (unfiltered)
stats query is issued exactly for platform admins asking with no
organization. -/
theorem notification_stats_access_control (p : Notifications.AuthProfile) :
    (p.has_role "platform_admin" = false →
       Notifications.get_notification_stats p none
         = .badRequest "organization_id is required for non-admin users"
       ∧ ∀ oid : UUID, p.roles.any (fun r => r.organization_id == some oid) = false →
           Notifications.get_notification_stats p (some oid)
             = .forbidden "You do not have access to stats for this organization")
    ∧ ∀ o : Option UUID,
        Notifications.get_notification_stats p o = .stats none
          ↔ (p.has_role "platform_admin" = true ∧ o = none) := by
  constructor
  · intro hnp
    refine ⟨by simp [Notifications.get_notification_stats, hnp], ?_⟩
    intro oid hno
    simp [Notifications.get_notification_stats, hnp, hno]
  · intro o
    by_cases hp : p.has_role "platform_admin" = true
    · simp [Notifications.get_notification_stats, hp]
    · cases o with
      | none => simp [Notifications.get_notification_stats, hp]
      | some oid =>
        by_cases ha : p.roles.any (fun r => r.organization_id == some oid) = true
        · simp [Notifications.get_notification_stats, hp, ha]
        · simp [Notifications.get_notification_stats, hp, ha]

/-- Witness for C6 with a concrete org-member profile. -/
theorem notification_stats_access_control_witness :
    Notifications.get_notification_stats demoMemberProfile none
      = .badRequest "organization_id is required for non-admin users"
    ∧ Notifications.get_notification_stats demoMemberProfile (some 7)
      = .forbidden "You do not have access to stats for this organization" := by
  have h := (notification_stats_access_control demoMemberProfile).1 (by decide)
  exact ⟨h.1, h.2 7 (by decide)⟩

/-- Claim C4: under the one-role-per-scope invariant, a successful
`assign_role_to_user` preserves the invariant (so no second simultaneous row
for a scope ever appears), and when the caller's `(user_id, organization_id)`
scope already holds a row, the plain insert is rejected by the declared
uniqueness constraint as a conflict, leaving the store unchanged. -/
theorem assign_role_scope_uniqueness (s : Store) (fid now : Nat)
    (d : RBACService.UserRoleCreate) (hinv : UniqueScopeInv s) :
    (∀ r s1, RBACService.assign_role_to_user s fid now d = ((some r, none), s1) →
       UniqueScopeInv s1)
    ∧ ((∃ ur ∈ s.user_roles,
          ur.user_id = d.user_id ∧ ur.organization_id = d.organization_id) →
        RBACService.assign_role_to_user s fid now d
          = ((none, some "duplicate key value violates unique constraint \"user_roles_user_id_organization_id_key\""), s)) := by
  constructor
  · intro r s1 hcall
    unfold RBACService.assign_role_to_user RBACService.db_insert_user_role at hcall
    by_cases htaken : RBACService.scope_taken s d.user_id d.organization_id = true
    · simp [htaken] at hcall
    · simp [htaken] at hcall
      obtain ⟨-, hs1⟩ := hcall
      subst hs1
      unfold UniqueScopeInv at hinv ⊢
      simp only [List.pairwise_append, List.pairwise_cons, List.mem_singleton]
      refine ⟨hinv, by simp, ?_⟩
      intro a ha b hb
      subst hb
      unfold RBACService.scope_taken at htaken
      simp only [List.any_eq_true, Bool.and_eq_true, beq_iff_eq, not_exists, not_and] at htaken
      intro hcontra
      exact htaken a ha hcontra.1 hcontra.2
  · intro hex
    have htaken : RBACService.scope_taken s d.user_id d.organization_id = true := by
      unfold RBACService.scope_taken
      simp only [List.any_eq_true, Bool.and_eq_true, beq_iff_eq]
      obtain ⟨ur, hur, h1, h2⟩ := hex
      exact ⟨ur, hur, h1, h2⟩
    unfold RBACService.assign_role_to_user RBACService.db_insert_user_role
    simp [htaken]

/-- Witness for C4: re-assigning a role to user 100 in the platform scope is
rejected as a duplicate, with the store untouched. -/
theorem assign_role_scope_uniqueness_witness :
    RBACService.assign_role_to_user demoStore 99 7
        { user_id := 100, role_id := 2, organization_id := none }
      = ((none, some "duplicate key value violates unique constraint \"user_roles_user_id_organization_id_key\""), demoStore) := by
  have hinv : UniqueScopeInv demoStore := by
    simp [UniqueScopeInv, demoStore]
  exact (assign_role_scope_uniqueness demoStore 99 7
      { user_id := 100, role_id := 2, organization_id := none } hinv).2
    ⟨{ id := 41, user_id := 100, role_id := 1, organization_id := none,
       created_at := 0, updated_at := 0 }, by simp [demoStore], rfl, rfl⟩

/-- Helper: after `use_verification_token`, every stored row carrying the
used token is stamped with the current time. -/
theorem use_token_marks (st : Notifications.NotifState) (tok : String) :
    ∀ r ∈ (Notifications.use_verification_token st tok).tokens, r.token = tok →
      r.used_at = some st.now := by
  intro r hr htok
  unfold Notifications.use_verification_token at hr
  simp only [List.mem_map] at hr
  obtain ⟨r0, hr0, hmap⟩ := hr
  by_cases h : (r0.token == tok) = true
  · rw [if_pos h] at hmap
    subst hmap
    rfl
  · rw [if_neg h] at hmap
    subst hmap
    exact absurd htok (by simpa using h)

/-- Claim C5: for a token that validates and a user that exists, the
verify-email route answers `already_verified` (marking the token used) when
the user is already confirmed, and otherwise flips the provider's
confirmation flag, marks the token used, and answers `success`; both bodies
carry `redirect_url` `/dashboard`. -/
theorem verify_email_token_flow (st : Notifications.NotifState) (tok : String)
    (uid : UUID) (user : Notifications.ProviderUser)
    (hconf : st.configured = true)
    (hval : Notifications.validate_verification_token st tok = some uid)
    (huser : st.users.find? (fun u => u.id == uid) = some user) :
    (user.email_confirmed_at.isSome = true →
       Notifications.verify_email st tok
         = (.ok { status := "already_verified", message := "Email is already verified",
                  redirect_url := "/dashboard" },
            Notifications.use_verification_token st tok)
       ∧ ∀ r ∈ (Notifications.verify_email st tok).2.tokens, r.token = tok →
           r.used_at = some st.now)
    ∧ (user.email_confirmed_at = none →
       (Notifications.verify_email st tok).1
         = .ok { status := "success", message := "Email verified successfully",
                 redirect_url := "/dashboard" }
       ∧ (∀ r ∈ (Notifications.verify_email st tok).2.tokens, r.token = tok →
            r.used_at = some st.now)
       ∧ ∀ u ∈ (Notifications.verify_email st tok).2.users, u.id = uid →
           u.email_confirmed_at = some st.now) := by
  constructor
  · intro hA
    have heq : Notifications.verify_email st tok
        = (.ok { status := "already_verified", message := "Email is already verified",
                 redirect_url := "/dashboard" },
           Notifications.use_verification_token st tok) := by
      simp [Notifications.verify_email, hval, hconf, huser, hA]
    refine ⟨heq, ?_⟩
    rw [heq]
    exact use_token_marks st tok
  · intro hB
    have hmem : user ∈ st.users := List.mem_of_find?_eq_some huser
    have hpred : (user.id == uid) = true := by
      simpa using List.find?_some huser
    have himg : ({ user with email_confirmed_at := some st.now } : Notifications.ProviderUser)
        ∈ (Notifications.confirm_user st uid).users := by
      unfold Notifications.confirm_user
      have hmm := List.mem_map_of_mem
        (fun u => if u.id == uid then { u with email_confirmed_at := some st.now } else u) hmem
      simpa [hpred] using hmm
    have hsome : ((Notifications.confirm_user st uid).users.find?
        (fun u => u.id == uid)).isSome := by
      rw [List.find?_isSome]
      exact ⟨_, himg, hpred⟩
    obtain ⟨v, hv⟩ := Option.isSome_iff_exists.mp hsome
    have heq : Notifications.verify_email st tok
        = (.ok { status := "success", message := "Email verified successfully",
                 redirect_url := "/dashboard" },
           Notifications.use_verification_token (Notifications.confirm_user st uid) tok) := by
      simp [Notifications.verify_email, hval, hconf, huser, hB, hv]
    refine ⟨by rw [heq], ?_, ?_⟩
    · rw [heq]
      exact use_token_marks _ tok
    · rw [heq]
      intro u hu hid
      simp only [Notifications.use_verification_token, Notifications.confirm_user,
        List.mem_map] at hu
      obtain ⟨u0, hu0, hmap⟩ := hu
      by_cases hcase : (u0.id == uid) = true
      · rw [if_pos hcase] at hmap
        subst hmap
        rfl
      · rw [if_neg hcase] at hmap
        subst hmap
        exact absurd hid (by simpa using hcase)

/-- Witness for C5: the demo token for the unconfirmed user 7 verifies with
`success`. -/
theorem verify_email_token_flow_witness :
    (Notifications.verify_email demoNotifState "tok123").1
      = .ok { status := "success", message := "Email verified successfully",
              redirect_url := "/dashboard" } := by
  have h := (verify_email_token_flow demoNotifState "tok123" 7
      { id := 7, email_confirmed_at := none } rfl (by decide) (by decide)).2 rfl
  exact h.1

/-- Helper: `check_permission` computes the head of the permission
name-filter and then the factored role-scan loop. -/
theorem check_permission_eq (s : Store) (u : UUID) (p : String) (o : Option UUID) :
    RBACService.check_permission s u p o =
      match s.permissions.filter (fun q => q.name == p) with
      | [] => (false, some "Permission not found")
      | q :: _ =>
        if RBACService.roles_any_has_perm s u o q.id then (true, none)
        else (false, none) := by
  unfold RBACService.check_permission RBACService.get_roles_for_user
    RBACService.get_permission_by_name RBACService.get_permissions_for_role
    RBACService.roles_any_has_perm
  cases s.permissions.filter (fun q => q.name == p) <;> rfl

/-- Helper: a successful role scan produces the spec-side witness rows. -/
theorem roles_any_has_perm_implies_spec (s : Store) (u : UUID) (p : String)
    (o : Option UUID) (q : PermissionRow) (hq_mem : q ∈ s.permissions)
    (hq_name : q.name = p)
    (hA : RBACService.roles_any_has_perm s u o q.id = true) :
    RBACService.user_has_permission_spec s u p o := by
  unfold RBACService.roles_any_has_perm at hA
  rw [List.any_eq_true] at hA
  obtain ⟨role, hrole_mem, hrole_any⟩ := hA
  rw [List.mem_filterMap] at hrole_mem
  obtain ⟨ur, hur_filt, hur_find⟩ := hrole_mem
  obtain ⟨hur_mem, hur_cond⟩ := List.mem_filter.mp hur_filt
  rw [Bool.and_eq_true, beq_iff_eq, beq_iff_eq] at hur_cond
  have hrole_id : role.id = ur.role_id := by simpa using List.find?_some hur_find
  rw [List.any_eq_true] at hrole_any
  obtain ⟨perm2, hperm2_mem, hperm2_id⟩ := hrole_any
  rw [List.mem_filterMap] at hperm2_mem
  obtain ⟨rp, hrp_filt, hrp_find⟩ := hperm2_mem
  obtain ⟨hrp_mem, hrp_cond⟩ := List.mem_filter.mp hrp_filt
  have hrp_role : rp.role_id = role.id := by simpa using hrp_cond
  have hperm2_pid : perm2.id = rp.permission_id := by
    simpa using List.find?_some hrp_find
  have hperm2_q : perm2.id = q.id := by simpa using hperm2_id
  refine ⟨ur, hur_mem, hur_cond.1, hur_cond.2, rp, hrp_mem, ?_, q, hq_mem, hq_name, ?_⟩
  · rw [hrp_role, hrole_id]
  · rw [← hperm2_pid]
    exact hperm2_q

/-- Helper: under unique permission names and the role foreign key, the
spec-side witness rows make the role scan succeed. -/
theorem spec_implies_roles_any_has_perm (s : Store) (u : UUID) (p : String)
    (o : Option UUID) (q : PermissionRow) (hq_mem : q ∈ s.permissions)
    (hq_name : q.name = p)
    (hname : ∀ p1 ∈ s.permissions, ∀ p2 ∈ s.permissions, p1.name = p2.name → p1.id = p2.id)
    (hfk : ∀ ur ∈ s.user_roles, ∃ r ∈ s.roles, r.id = ur.role_id)
    (hspec : RBACService.user_has_permission_spec s u p o) :
    RBACService.roles_any_has_perm s u o q.id = true := by
  obtain ⟨ur, hur_mem, hur_u, hur_o, rp, hrp_mem, hrp_role, perm, hperm_mem,
    hperm_name, hrp_perm⟩ := hspec
  have hqid : q.id = perm.id := hname q hq_mem perm hperm_mem (by rw [hq_name, hperm_name])
  obtain ⟨r0, hr0_mem, hr0_id⟩ := hfk ur hur_mem
  have hfind_some : (s.roles.find? (fun r => r.id == ur.role_id)).isSome := by
    rw [List.find?_isSome]
    exact ⟨r0, hr0_mem, by simpa using hr0_id⟩
  obtain ⟨role, hrole⟩ := Option.isSome_iff_exists.mp hfind_some
  have hrole_id : role.id = ur.role_id := by simpa using List.find?_some hrole
  unfold RBACService.roles_any_has_perm
  rw [List.any_eq_true]
  refine ⟨role, ?_, ?_⟩
  · rw [List.mem_filterMap]
    refine ⟨ur, List.mem_filter.mpr ⟨hur_mem, ?_⟩, hrole⟩
    simp [hur_u, hur_o]
  · have hfindp : (s.permissions.find? (fun pp => pp.id == rp.permission_id)).isSome := by
      rw [List.find?_isSome]
      exact ⟨perm, hperm_mem, by simp [hrp_perm]⟩
    obtain ⟨perm2, hperm2⟩ := Option.isSome_iff_exists.mp hfindp
    have hperm2_pid : perm2.id = rp.permission_id := by
      simpa using List.find?_some hperm2
    rw [List.any_eq_true]
    refine ⟨perm2, ?_, ?_⟩
    · rw [List.mem_filterMap]
      refine ⟨rp, List.mem_filter.mpr ⟨hrp_mem, ?_⟩, hperm2⟩
      simp [hrp_role, hrole_id]
    · simp [hperm2_pid, hrp_perm, hqid]

/-- Claim C1: with unique permission names and the `user_roles → roles`
foreign key, `check_permission` returns true exactly when some role assigned
to the user in the queried scope is linked via `role_permissions` to the
permission named `p`; it returns `(false, none)` — false with no error —
when the permission exists but the user has no roles in that scope, and
fails with the not-found error when no permission of that name exists. -/
theorem check_permission_correct (s : Store) (u : UUID) (p : String) (o : Option UUID)
    (hname : ∀ p1 ∈ s.permissions, ∀ p2 ∈ s.permissions, p1.name = p2.name → p1.id = p2.id)
    (hfk : ∀ ur ∈ s.user_roles, ∃ r ∈ s.roles, r.id = ur.role_id) :
    ((RBACService.check_permission s u p o).1 = true ↔ RBACService.user_has_permission_spec s u p o)
    ∧ ((∃ q ∈ s.permissions, q.name = p) →
        (¬ ∃ ur ∈ s.user_roles, ur.user_id = u ∧ ur.organization_id = o) →
        RBACService.check_permission s u p o = (false, none))
    ∧ ((¬ ∃ q ∈ s.permissions, q.name = p) →
        RBACService.check_permission s u p o = (false, some "Permission not found")) := by
  rcases hfilter : s.permissions.filter (fun q => q.name == p) with _ | ⟨q, rest⟩
  · have hnoperm : ¬ ∃ q ∈ s.permissions, q.name = p := by
      rintro ⟨q, hq_mem, hq_name⟩
      have : q ∈ s.permissions.filter (fun q => q.name == p) :=
        List.mem_filter.mpr ⟨hq_mem, by simp [hq_name]⟩
      rw [hfilter] at this
      exact absurd this (List.not_mem_nil q)
    have hval : RBACService.check_permission s u p o = (false, some "Permission not found") := by
      rw [check_permission_eq, hfilter]
    refine ⟨?_, ?_, fun _ => hval⟩
    · rw [hval]
      constructor
      · intro h
        exact absurd h (by simp)
      · rintro ⟨ur, -, -, -, rp, -, -, perm, hperm_mem, hperm_name, -⟩
        exact absurd ⟨perm, hperm_mem, hperm_name⟩ hnoperm
    · intro hq _
      exact absurd hq hnoperm
  · have hq : q ∈ s.permissions ∧ q.name = p := by
      have : q ∈ s.permissions.filter (fun q => q.name == p) := by
        rw [hfilter]
        exact List.mem_cons_self q rest
      have h := List.mem_filter.mp this
      exact ⟨h.1, by simpa using h.2⟩
    have hval : RBACService.check_permission s u p o =
        if RBACService.roles_any_has_perm s u o q.id then (true, none)
        else (false, none) := by
      rw [check_permission_eq, hfilter]
    refine ⟨?_, ?_, ?_⟩
    · rw [hval]
      cases hA : RBACService.roles_any_has_perm s u o q.id with
      | true =>
        refine iff_of_true ?_ (roles_any_has_perm_implies_spec s u p o q hq.1 hq.2 hA)
        simp
      | false =>
        refine iff_of_false ?_ ?_
        · simp
        · intro hspec
          have := spec_implies_roles_any_has_perm s u p o q hq.1 hq.2 hname hfk hspec
          rw [hA] at this
          exact absurd this (by simp)
    · intro _ hnr
      rw [hval]
      have hempty : s.user_roles.filter
          (fun ur => ur.user_id == u && ur.organization_id == o) = [] := by
        rw [List.filter_eq_nil_iff]
        intro ur hur
        simp only [Bool.and_eq_true, beq_iff_eq, not_and]
        intro h1 h2
        exact hnr ⟨ur, hur, h1, h2⟩
      have hA : RBACService.roles_any_has_perm s u o q.id = false := by
        unfold RBACService.roles_any_has_perm
        rw [hempty]
        rfl
      rw [hA]
      rfl
    · intro hnoperm
      exact absurd ⟨q, hq.1, hq.2⟩ hnoperm

/-- Witness for C1: in the demo store, user 200 holds `billing:read` in
organization 5, and an unknown permission name yields the not-found error. -/
theorem check_permission_correct_witness :
    (RBACService.check_permission demoStore 200 "billing:read" (some 5)).1 = true
    ∧ RBACService.check_permission demoStore 200 "no:such" (some 5)
      = (false, some "Permission not found") := by
  constructor
  · exact (check_permission_correct demoStore 200 "billing:read" (some 5)
      (by decide) (by decide)).1.mpr
      ⟨{ id := 42, user_id := 200, role_id := 2, organization_id := some 5,
         created_at := 0, updated_at := 0 }, by decide, rfl, rfl,
       { id := 31, role_id := 2, permission_id := 21, created_at := 0 }, by decide, rfl,
       billingReadPerm, by decide, rfl, rfl⟩
  · exact (check_permission_correct demoStore 200 "no:such" (some 5)
      (by decide) (by decide)).2.2 (by decide)

end SaaS
